import Mathlib

/-!
Shallow embedding of the subtask lifecycle core of `apps/transcoding/task.py`
(class `TranscodingTask` and the builder `TranscodingTaskBuilder`).

The task's mutable state (the base-class bookkeeping fields together with the
fields added by `TranscodingTask.__init__`) is embedded as the structure
`TaskState`; each Python method becomes a pure function on `TaskState`,
returning `Except String _` where the Python code can raise (KeyError,
AssertionError, base-class rejection of a notification).  `subtasks_given`
is a Python dict keyed by subtask id; dicts preserve insertion order, so it
is embedded as a list of `Subtask` records in insertion order, with ids
assumed unique (each entry is created with a freshly minted id).

Behaviour of the base class `CoreTask` (not part of this repository's
sources here) is modelled from the specification and marked
`Modelled from the spec:` on each such definition.
-/

namespace Transcoding

/-- Subtask lifecycle statuses used by `task.py`
(`golem.task.taskstate.SubtaskStatus`). -/
inductive SubtaskStatus where
  | starting
  | downloading
  | verifying
  | finished
  | failure
  | restarted
  | resent
  | cancelled
  | timeout
deriving DecidableEq, Repr

/-- One entry of the `subtasks_given` dict: the fields of the record built in
`query_extra_data` that the lifecycle logic reads (`subtask_id`,
`subtask_num`, `status`). -/
structure Subtask where
  subtask_id : String
  subtask_num : Nat
  status : SubtaskStatus
deriving DecidableEq, Repr

/-- The task state: base-class bookkeeping fields (`subtasks_given`,
`num_tasks_received`, `num_failed_subtasks`, `last_task`, the total subtask
count, `task_definition.resources`) together with the fields introduced by
`TranscodingTask.__init__` (`subtask_exceeded_max_retries_after_fail`,
`number_of_failed_subtask_tries`, `collected_files`).
`num_failed_subtasks` is an `Int` because the Python counter is decremented
without a lower bound in `_get_next_subtask`. -/
structure TaskState where
  subtasks_given : List Subtask
  num_tasks_received : Nat
  num_failed_subtasks : Int
  last_task : Nat
  total_tasks : Nat
  subtask_exceeded_max_retries_after_fail : Bool
  number_of_failed_subtask_tries : List (Nat × Nat)
  collected_files : List String
  resources : List String
deriving DecidableEq, Repr

/-- `TranscodingTask.MAX_SUBTASK_RETRIES_AFTER_FAIL = 2`. -/
def MAX_SUBTASK_RETRIES_AFTER_FAIL : Nat := 2

/-- Mutation of one dict entry: set the status of the record with the given
subtask id (ids are unique, so at most one record changes). -/
def setStatus (l : List Subtask) (sid : String) (st : SubtaskStatus) :
    List Subtask :=
  l.map fun t => if t.subtask_id = sid then { t with status := st } else t

/-- The filter predicate of `_get_next_subtask`:
`sub.status in [SubtaskStatus.failure, SubtaskStatus.restarted]`. -/
def isFailedOrRestarted (t : Subtask) : Bool :=
  t.status = SubtaskStatus.failure || t.status = SubtaskStatus.restarted

/-- `TranscodingTask._get_next_subtask`: scan `subtasks_given.values()` (dict
insertion order) for the first entry whose status is `failure` or
`restarted`; if found, mark it `resent`, decrement `num_failed_subtasks` and
return its `subtask_num`.  Otherwise `assert last_task < total_tasks`
(an `AssertionError` when it fails), then advance `last_task` and return the
previous cursor value. -/
def getNextSubtask (s : TaskState) : Except String (TaskState × Nat) :=
  match s.subtasks_given.find? isFailedOrRestarted with
  | some failed_subtask =>
      .ok ({ s with
              subtasks_given :=
                setStatus s.subtasks_given failed_subtask.subtask_id
                  SubtaskStatus.resent,
              num_failed_subtasks := s.num_failed_subtasks - 1 },
           failed_subtask.subtask_num)
  | none =>
      if s.last_task < s.total_tasks then
        .ok ({ s with last_task := s.last_task + 1 }, s.last_task)
      else
        .error "AssertionError: last_task < total_tasks"

/-- `TranscodingTask._get_subtask_number_from_id`:
`self.subtasks_given[subtask_id]["subtask_num"]`; a lookup of an id that is
not a key of the dict raises `KeyError`. -/
def getSubtaskNumberFromId (s : TaskState) (sid : String) :
    Except String Nat :=
  match s.subtasks_given.find? (fun t => t.subtask_id = sid) with
  | some t => .ok t.subtask_num
  | none => .error "KeyError"

/-- Lookup of a chunk's failure counter; absence means no entry yet. -/
def failCount (s : TaskState) (k : Nat) : Option Nat :=
  s.number_of_failed_subtask_tries.lookup k

/-- Update of the failure-counter dict: `d[k] = v`, replacing the entry in
place when the key is present and appending it otherwise, as Python dict
assignment does. -/
def setCount : List (Nat × Nat) → Nat → Nat → List (Nat × Nat)
  | [], k, v => [(k, v)]
  | p :: rest, k, v =>
      if p.1 = k then (k, v) :: rest else p :: setCount rest k v

/-- `TranscodingTask._increment_number_of_subtask_fails`: resolve the chunk
number from the id (KeyError on an unknown id), create the counter entry
with value 0 if absent, then increment it by one. -/
def incrementNumberOfSubtaskFails (s : TaskState) (sid : String) :
    Except String TaskState := do
  let k ← getSubtaskNumberFromId s sid
  let c := (failCount s k).getD 0
  .ok { s with
        number_of_failed_subtask_tries :=
          setCount s.number_of_failed_subtask_tries k (c + 1) }

/-- `TranscodingTask._should_retry_failed_subtask`: read the chunk's counter
(KeyError when the id is unknown or no counter entry exists) and compare it
with `MAX_SUBTASK_RETRIES_AFTER_FAIL`. -/
def shouldRetryFailedSubtask (s : TaskState) (sid : String) :
    Except String Bool := do
  let k ← getSubtaskNumberFromId s sid
  match failCount s k with
  | some c => .ok (c < MAX_SUBTASK_RETRIES_AFTER_FAIL)
  | none => .error "KeyError"

/-- Modelled from the spec: the base-class failure handler
(`CoreTask.computation_failed`, not in these sources) that the override
delegates to.  Per the specification's notification contract it resolves the
dispatch id (failing on an unknown id), records the chunk's status as
`failed` and counts one more outstanding failure. -/
def coreComputationFailed (s : TaskState) (sid : String) :
    Except String TaskState :=
  match s.subtasks_given.find? (fun t => t.subtask_id = sid) with
  | some _ =>
      .ok { s with
            subtasks_given := setStatus s.subtasks_given sid
              SubtaskStatus.failure,
            num_failed_subtasks := s.num_failed_subtasks + 1 }
  | none => .error "UnknownDispatch"

/-- `TranscodingTask.computation_failed`: increment the chunk's failure
counter, set the `subtask_exceeded_max_retries_after_fail` latch when
`_should_retry_failed_subtask` is now false, then delegate to the base
class. -/
def computationFailed (s : TaskState) (sid : String) :
    Except String TaskState := do
  let s1 ← incrementNumberOfSubtaskFails s sid
  let should ← shouldRetryFailedSubtask s1 sid
  let s2 :=
    if should then s1
    else { s1 with subtask_exceeded_max_retries_after_fail := true }
  coreComputationFailed s2 sid

/-- Modelled from the spec: `CoreTask.needs_computation` (not in these
sources).  Per the specification there is more work to hand out exactly when
some chunk index was never dispatched (the dispatch cursor is below N) or an
outstanding failure awaits a retry. -/
def coreNeedsComputation (s : TaskState) : Bool :=
  decide (s.last_task < s.total_tasks) || decide (0 < s.num_failed_subtasks)

/-- `TranscodingTask.needs_computation`: refuse all further work once the
`subtask_exceeded_max_retries_after_fail` latch is set, otherwise defer to
the base class. -/
def needsComputation (s : TaskState) : Bool :=
  if s.subtask_exceeded_max_retries_after_fail then false
  else coreNeedsComputation s

/-- `TranscodingTask._is_subtask_ended`: status in
`[finished, failure, timeout, cancelled, resent]`. -/
def isSubtaskEnded (t : Subtask) : Bool :=
  t.status = SubtaskStatus.finished ||
  t.status = SubtaskStatus.failure ||
  t.status = SubtaskStatus.timeout ||
  t.status = SubtaskStatus.cancelled ||
  t.status = SubtaskStatus.resent

/-- `TranscodingTask._all_subtasks_have_ended_status`: the filtered list of
ended subtasks has the same length as `subtasks_given.values()`. -/
def allSubtasksHaveEndedStatus (s : TaskState) : Bool :=
  (s.subtasks_given.filter isSubtaskEnded).length = s.subtasks_given.length

/-- Modelled from the spec: `CoreTask.finished_computation` (not in these
sources): the default full-success termination criterion, true exactly when
the count of received results has reached N. -/
def coreFinishedComputation (s : TaskState) : Bool :=
  s.num_tasks_received = s.total_tasks

/-- `TranscodingTask.finished_computation`: with the
`subtask_exceeded_max_retries_after_fail` latch set, the task is finished
once all recorded subtasks have an ended status; otherwise the base-class
criterion decides. -/
def finishedComputation (s : TaskState) : Bool :=
  if s.subtask_exceeded_max_retries_after_fail then
    allSubtasksHaveEndedStatus s
  else coreFinishedComputation s

/-- Modelled from the spec: `CoreTask.accept_results` (not in these sources).
Per the specification's notification contract it fails with
`UnknownDispatch` when the dispatch id does not match any outstanding
dispatch — never issued, or already resolved (a duplicate success
notification) — and otherwise records the chunk's status as succeeded
(`finished`). -/
def coreAcceptResults (s : TaskState) (sid : String) :
    Except String TaskState :=
  match s.subtasks_given.find? (fun t => t.subtask_id = sid) with
  | none => .error "UnknownDispatch: never issued"
  | some t =>
      if t.status = SubtaskStatus.finished then
        .error "UnknownDispatch: already resolved"
      else
        .ok { s with
              subtasks_given := setStatus s.subtasks_given sid
                SubtaskStatus.finished }

/-- `TranscodingTask.accept_results`: base-class acceptance, then
`_collect_results` (append the result files to `collected_files`), then
increment `num_tasks_received`; when the count reaches `get_total_tasks()`,
`_merge_video` is invoked.  The returned boolean records whether this call
invoked the merge. -/
def acceptResults (s : TaskState) (sid : String) (result_files : List String) :
    Except String (TaskState × Bool) := do
  let s1 ← coreAcceptResults s sid
  let s2 := { s1 with
              collected_files := s1.collected_files ++ result_files,
              num_tasks_received := s1.num_tasks_received + 1 }
  .ok (s2, s2.num_tasks_received = s2.total_tasks)

/-- `TranscodingTask.query_extra_data`: mint a fresh subtask id (passed in
here, since ids come from an external generator), pick the next chunk with
`_get_next_subtask`, and record a new `subtasks_given` entry with status
`starting` for that chunk. -/
def queryExtraData (s : TaskState) (sid : String) :
    Except String (TaskState × Nat) := do
  let (s1, num) ← getNextSubtask s
  .ok ({ s1 with
         subtasks_given :=
           s1.subtasks_given ++ [⟨sid, num, SubtaskStatus.starting⟩] }, num)

/-- External stimuli of one task: a dispatch request (`query_extra_data`), a
failure notification (`computation_failed`) and a success notification
(`accept_results`). -/
inductive Op where
  | dispatch (sid : String)
  | fail (sid : String)
  | accept (sid : String) (files : List String)
deriving DecidableEq, Repr

/-- One stimulus applied to the state; the boolean records whether the step
invoked `_merge_video`. -/
def step (s : TaskState) : Op → Except String (TaskState × Bool)
  | .dispatch sid => (queryExtraData s sid).map fun p => (p.1, false)
  | .fail sid => (computationFailed s sid).map fun s1 => (s1, false)
  | .accept sid files => acceptResults s sid files

/-- Run a list of stimuli, counting how many of them invoked
`_merge_video`. -/
def runOps (s : TaskState) : List Op → Except String (TaskState × Nat)
  | [] => .ok (s, 0)
  | op :: rest => do
      let (s1, b) ← step s op
      let (s2, m) ← runOps s1 rest
      .ok (s2, (if b then 1 else 0) + m)

/-- The state of a freshly initialized task: `initialize` seeded `n` chunks,
no subtask dispatched yet, all counters at zero, the given input
resources. -/
def initState (n : Nat) (resources : List String) : TaskState where
  subtasks_given := []
  num_tasks_received := 0
  num_failed_subtasks := 0
  last_task := 0
  total_tasks := n
  subtask_exceeded_max_retries_after_fail := false
  number_of_failed_subtask_tries := []
  collected_files := []
  resources := resources

/-- The externally visible actions performed by `_merge_video`, in program
order: removing the intermediate resource archives, handing the collected
files to the external stream merger, and relocating the merged output to its
final destination. -/
inductive MergeEffect where
  | removeIntermediate
  | mergeStreams (files : List String)
  | moveOutput
deriving DecidableEq, Repr

/-- `TranscodingTask._merge_video`: first removes the intermediate videos,
then `assert len(self.task_definition.resources) == 1` — an
`AssertionError` aborts the merge when the task definition does not hold
exactly one input resource — and only past the assertion calls
`merge_and_replace_video_streams` on `collected_files` and moves the result
to the output location.  The first component lists the external actions
performed, in order; the second is the outcome. -/
def mergeVideo (s : TaskState) : List MergeEffect × Except String Unit :=
  if s.resources.length = 1 then
    ([MergeEffect.removeIntermediate,
      MergeEffect.mergeStreams s.collected_files,
      MergeEffect.moveOutput], .ok ())
  else
    ([MergeEffect.removeIntermediate],
     .error "AssertionError: input file is the only resource")

/-- Python-value view of what `TranscodingTaskBuilder.get_output_path` can
interpolate into the output file name: a string, or the whole presets
dict. -/
inductive PyVal where
  | str (s : String)
  | dict (entries : List (String × String))
deriving DecidableEq, Repr

/-- Rendering of a `PyVal` by `str.format`, as Python does: a string renders
as itself, a dict as its repr, such as \x7b'container': 'mp4'\x7d. -/
def pyStr : PyVal → String
  | .str s => s
  | .dict entries =>
      "\x7b" ++
        String.intercalate ", "
          (entries.map fun kv =>
            "\x27" ++ kv.1 ++ "\x27: \x27" ++ kv.2 ++ "\x27") ++
      "\x7d"

/-- `TranscodingTaskBuilder._get_presets`: after checking that the input
path names an existing file (that filesystem check is taken as satisfied
here), it returns the dict `\x7b'container': 'mp4'\x7d`. -/
def getPresets : List (String × String) := [("container", "mp4")]

/-- The fields of the `options` sub-dictionary that
`TranscodingTaskBuilder.get_output_path` reads: `output_path` (required),
and the optional `output_filename` and `container` entries. -/
structure OutputOptions where
  output_path : String
  output_filename : Option String
  container : Option String
deriving DecidableEq, Repr

/-- Posix `os.path.join` for a directory not already ending in a separator
and a relative second component: join with a single "/". -/
def osPathJoin (a b : String) : String :=
  a ++ "/" ++ b

/-- `TranscodingTaskBuilder.get_output_path`:
`container = options.get('container', cls._get_presets(...))` — note the
default is the whole presets dict, not its `container` entry — then
`alternative_name = format(name, container)`,
`filename = options.get("output_filename", alternative_name)`, and the
result is `os.path.join(options['output_path'], filename)`. -/
def getOutputPath (opts : OutputOptions) (name : String) : String :=
  let container : PyVal :=
    match opts.container with
    | some c => .str c
    | none => .dict getPresets
  let alternative_name := name ++ "." ++ pyStr container
  let filename := opts.output_filename.getD alternative_name
  osPathJoin opts.output_path filename

/-- Stated from the spec, for comparison with `getOutputPath`: the output
path is `output_path` joined with the explicit `output_filename` when one is
given, and otherwise with `name.container` where `container` is the
options entry or, when unspecified, the preset default container derived
from the input. -/
def getOutputPathSpec (opts : OutputOptions) (name : String) : String :=
  let container : String :=
    match opts.container with
    | some c => c
    | none => (getPresets.lookup "container").getD ""
  let alternative_name := name ++ "." ++ container
  let filename := opts.output_filename.getD alternative_name
  osPathJoin opts.output_path filename

/-- Stated from the spec, for comparison with `finishedComputation`: chunk
`i` "has reached an ended status" when some recorded subtask for chunk `i`
is in an ended status.  A chunk that was never dispatched has no recorded
subtask and so has not reached an ended status. -/
def chunkHasEndedStatus (s : TaskState) (i : Nat) : Bool :=
  s.subtasks_given.any fun t => t.subtask_num = i && isSubtaskEnded t

/-- Stated from the spec, for comparison with `finishedComputation`: every
chunk index below N has reached an ended status. -/
def allChunksEnded (s : TaskState) : Bool :=
  (List.range s.total_tasks).all (chunkHasEndedStatus s)

/-! ### Concrete states and stimulus sequences used in the analysis -/

/-- A partial-failure run with N = 2: chunk 0 is dispatched and succeeds;
chunk 1 is dispatched, fails, is retried, and fails again, exceeding the
retry budget. -/
def c1Ops : List Op :=
  [Op.dispatch "a", Op.accept "a" ["r0"], Op.dispatch "b", Op.fail "b",
   Op.dispatch "c", Op.fail "c"]

/-- A one-chunk task with its only subtask dispatched and still starting. -/
def c1AccState : TaskState where
  subtasks_given := [⟨"a", 0, SubtaskStatus.starting⟩]
  num_tasks_received := 0
  num_failed_subtasks := 0
  last_task := 1
  total_tasks := 1
  subtask_exceeded_max_retries_after_fail := false
  number_of_failed_subtask_tries := []
  collected_files := []
  resources := ["input.mp4"]

/-- The state after the success notification for `c1AccState`. -/
def c1AccAfter : TaskState where
  subtasks_given := [⟨"a", 0, SubtaskStatus.finished⟩]
  num_tasks_received := 1
  num_failed_subtasks := 0
  last_task := 1
  total_tasks := 1
  subtask_exceeded_max_retries_after_fail := false
  number_of_failed_subtask_tries := []
  collected_files := ["r"]
  resources := ["input.mp4"]

/-- A latched state whose recorded subtasks are all in ended statuses. -/
def c1EndedState : TaskState where
  subtasks_given := [⟨"a", 0, SubtaskStatus.finished⟩,
                     ⟨"b", 1, SubtaskStatus.resent⟩,
                     ⟨"c", 1, SubtaskStatus.failure⟩]
  num_tasks_received := 1
  num_failed_subtasks := 1
  last_task := 2
  total_tasks := 2
  subtask_exceeded_max_retries_after_fail := true
  number_of_failed_subtask_tries := [(1, 2)]
  collected_files := ["r0"]
  resources := ["input.mp4"]

/-- A state whose `subtasks_given` insertion order disagrees with chunk
index order among failed records: the record for chunk 5 was inserted
before the record for chunk 2. -/
def c2State : TaskState where
  subtasks_given := [⟨"s5", 5, SubtaskStatus.failure⟩,
                     ⟨"s2", 2, SubtaskStatus.restarted⟩]
  num_tasks_received := 0
  num_failed_subtasks := 2
  last_task := 6
  total_tasks := 6
  subtask_exceeded_max_retries_after_fail := false
  number_of_failed_subtask_tries := [(5, 1)]
  collected_files := []
  resources := ["input.mp4"]

/-- A state with one healthy record ahead of one failed record. -/
def c2WitState : TaskState where
  subtasks_given := [⟨"a", 0, SubtaskStatus.starting⟩,
                     ⟨"b", 1, SubtaskStatus.failure⟩]
  num_tasks_received := 0
  num_failed_subtasks := 1
  last_task := 2
  total_tasks := 2
  subtask_exceeded_max_retries_after_fail := false
  number_of_failed_subtask_tries := [(1, 1)]
  collected_files := []
  resources := ["input.mp4"]

/-- An exhausted state: the single chunk succeeded, nothing failed, and the
dispatch cursor has reached N. -/
def c3State : TaskState where
  subtasks_given := [⟨"s0", 0, SubtaskStatus.finished⟩]
  num_tasks_received := 1
  num_failed_subtasks := 0
  last_task := 1
  total_tasks := 1
  subtask_exceeded_max_retries_after_fail := false
  number_of_failed_subtask_tries := []
  collected_files := ["r0"]
  resources := ["input.mp4"]

/-- A state whose only subtask record is still starting, with no failures
yet recorded. -/
def c4State : TaskState where
  subtasks_given := [⟨"a", 0, SubtaskStatus.starting⟩]
  num_tasks_received := 0
  num_failed_subtasks := 0
  last_task := 1
  total_tasks := 3
  subtask_exceeded_max_retries_after_fail := false
  number_of_failed_subtask_tries := []
  collected_files := []
  resources := ["input.mp4"]

/-- The state after the first failure notification for `c4State`. -/
def c4After : TaskState where
  subtasks_given := [⟨"a", 0, SubtaskStatus.failure⟩]
  num_tasks_received := 0
  num_failed_subtasks := 1
  last_task := 1
  total_tasks := 3
  subtask_exceeded_max_retries_after_fail := false
  number_of_failed_subtask_tries := [(0, 1)]
  collected_files := []
  resources := ["input.mp4"]

/-- A latched state (N = 3) in which chunk 0 was retried and failed again
while chunks 1 and 2 were never dispatched: every recorded subtask has an
ended status, yet chunk 1 has no recorded status at all. -/
def c5State : TaskState where
  subtasks_given := [⟨"a", 0, SubtaskStatus.resent⟩,
                     ⟨"b", 0, SubtaskStatus.failure⟩]
  num_tasks_received := 0
  num_failed_subtasks := 1
  last_task := 1
  total_tasks := 3
  subtask_exceeded_max_retries_after_fail := true
  number_of_failed_subtask_tries := [(0, 2)]
  collected_files := []
  resources := ["input.mp4"]

/-- A latched two-record state used to instantiate the amended termination
predicate. -/
def c5WitState : TaskState where
  subtasks_given := [⟨"a", 0, SubtaskStatus.finished⟩,
                     ⟨"b", 1, SubtaskStatus.failure⟩]
  num_tasks_received := 1
  num_failed_subtasks := 1
  last_task := 2
  total_tasks := 2
  subtask_exceeded_max_retries_after_fail := true
  number_of_failed_subtask_tries := [(1, 2)]
  collected_files := ["r0"]
  resources := ["input.mp4"]

/-- A full-success run with N = 2 in which chunk 1's result is accepted
before chunk 0's. -/
def c6Ops : List Op :=
  [Op.dispatch "a", Op.dispatch "b", Op.accept "b" ["r1"],
   Op.accept "a" ["r0"]]

/-- A one-chunk state one acceptance away from full success. -/
def c6WitState : TaskState where
  subtasks_given := [⟨"a", 0, SubtaskStatus.starting⟩]
  num_tasks_received := 0
  num_failed_subtasks := 0
  last_task := 1
  total_tasks := 1
  subtask_exceeded_max_retries_after_fail := false
  number_of_failed_subtask_tries := []
  collected_files := []
  resources := ["input.mp4"]

/-- The state after accepting the one outstanding result of
`c6WitState`. -/
def c6WitAfter : TaskState where
  subtasks_given := [⟨"a", 0, SubtaskStatus.finished⟩]
  num_tasks_received := 1
  num_failed_subtasks := 0
  last_task := 1
  total_tasks := 1
  subtask_exceeded_max_retries_after_fail := false
  number_of_failed_subtask_tries := []
  collected_files := ["r"]
  resources := ["input.mp4"]

/-- A two-chunk state with one dispatched, not yet resolved subtask. -/
def c7State : TaskState where
  subtasks_given := [⟨"a", 0, SubtaskStatus.starting⟩]
  num_tasks_received := 0
  num_failed_subtasks := 0
  last_task := 1
  total_tasks := 2
  subtask_exceeded_max_retries_after_fail := false
  number_of_failed_subtask_tries := []
  collected_files := []
  resources := ["input.mp4"]

/-- The state after the first success notification for `c7State`. -/
def c7After : TaskState where
  subtasks_given := [⟨"a", 0, SubtaskStatus.finished⟩]
  num_tasks_received := 1
  num_failed_subtasks := 0
  last_task := 1
  total_tasks := 2
  subtask_exceeded_max_retries_after_fail := false
  number_of_failed_subtask_tries := []
  collected_files := ["r0"]
  resources := ["input.mp4"]

/-- A state holding one dispatch record, used to send a notification whose
id matches nothing. -/
def c8State : TaskState where
  subtasks_given := [⟨"a", 0, SubtaskStatus.starting⟩]
  num_tasks_received := 0
  num_failed_subtasks := 0
  last_task := 1
  total_tasks := 2
  subtask_exceeded_max_retries_after_fail := false
  number_of_failed_subtask_tries := []
  collected_files := []
  resources := ["input.mp4"]

/-- Builder options carrying only an output path: no explicit output file
name and no container choice. -/
def c9Opts : OutputOptions where
  output_path := "/out"
  output_filename := none
  container := none

/-- A task state whose definition holds two input resources. -/
def c10State : TaskState where
  subtasks_given := []
  num_tasks_received := 0
  num_failed_subtasks := 0
  last_task := 0
  total_tasks := 2
  subtask_exceeded_max_retries_after_fail := false
  number_of_failed_subtask_tries := []
  collected_files := ["c0.mp4", "c1.mp4"]
  resources := ["input1.mp4", "input2.mp4"]

/-! ### Helper lemmas about the list-embedded dictionaries -/

theorem lookup_setCount_self (d : List (Nat × Nat)) (k v : Nat) :
    (setCount d k v).lookup k = some v := by
  induction d with
  | nil => simp [setCount, List.lookup]
  | cons p rest ih =>
      by_cases h : p.1 = k
      · simp [setCount, h, List.lookup]
      · simp only [setCount, if_neg h, List.lookup]
        have : (k == p.1) = false := by
          simp [beq_iff_eq]
          exact fun hk => h hk.symm
        simp [this, ih]

theorem find?_append_of_prefix_none {α : Type} (p : α → Bool)
    (pre : List α) (t : α) (post : List α)
    (hpre : ∀ u ∈ pre, p u = false) (ht : p t = true) :
    (pre ++ t :: post).find? p = some t := by
  induction pre with
  | nil => simp [List.find?_cons, ht]
  | cons a as ih =>
      have ha : p a = false := hpre a (List.mem_cons_self a as)
      simp only [List.cons_append, List.find?_cons, ha]
      exact ih fun u hu => hpre u (List.mem_cons_of_mem a hu)

theorem find?_setStatus (l : List Subtask) (sid : String)
    (st : SubtaskStatus) :
    (setStatus l sid st).find? (fun t => t.subtask_id = sid) =
      (l.find? (fun t => t.subtask_id = sid)).map
        fun t => { t with status := st } := by
  induction l with
  | nil => simp [setStatus]
  | cons a as ih =>
      by_cases h : a.subtask_id = sid
      · simp [setStatus, h, List.find?_cons]
      · simp only [setStatus, List.map_cons, if_neg h, List.find?_cons]
        simp only [h, decide_False]
        exact ih

theorem allSubtasksHaveEndedStatus_iff (s : TaskState) :
    allSubtasksHaveEndedStatus s = true ↔
      ∀ t ∈ s.subtasks_given, isSubtaskEnded t = true := by
  unfold allSubtasksHaveEndedStatus
  rw [decide_eq_true_eq]
  constructor
  · intro h t ht
    have hsub : s.subtasks_given.filter isSubtaskEnded = s.subtasks_given :=
      (List.filter_sublist s.subtasks_given).eq_of_length h
    have := List.mem_filter.mp (hsub ▸ ht)
    exact this.2
  · intro h
    rw [List.filter_eq_self.mpr h]

/-! ### Shape lemmas: full characterization of each successful operation -/

theorem getSubtaskNumberFromId_ok {s : TaskState} {sid : String} {k : Nat}
    (h : getSubtaskNumberFromId s sid = .ok k) :
    ∃ t, s.subtasks_given.find? (fun u => u.subtask_id = sid) = some t ∧
      t.subtask_num = k := by
  unfold getSubtaskNumberFromId at h
  cases hf : s.subtasks_given.find? (fun u => u.subtask_id = sid) with
  | none => rw [hf] at h; exact absurd h (by simp)
  | some t => rw [hf] at h; exact ⟨t, rfl, by injection h⟩

theorem incrementNumberOfSubtaskFails_ok {s : TaskState} {sid : String}
    {s1 : TaskState} (h : incrementNumberOfSubtaskFails s sid = .ok s1) :
    ∃ k, getSubtaskNumberFromId s sid = .ok k ∧
      s1 = { s with
             number_of_failed_subtask_tries :=
               setCount s.number_of_failed_subtask_tries k
                 ((failCount s k).getD 0 + 1) } := by
  unfold incrementNumberOfSubtaskFails at h
  cases hk : getSubtaskNumberFromId s sid with
  | error e => rw [hk] at h; exact absurd h (by simp [Bind.bind, Except.bind])
  | ok k =>
      rw [hk] at h
      simp only [Bind.bind, Except.bind] at h
      exact ⟨k, rfl, by injection h with h1; exact h1.symm⟩

theorem computationFailed_ok {s : TaskState} {sid : String} {s1 : TaskState}
    (h : computationFailed s sid = .ok s1) :
    ∃ k c, getSubtaskNumberFromId s sid = .ok k ∧
      c = (failCount s k).getD 0 + 1 ∧
      s1 = { s with
             number_of_failed_subtask_tries :=
               setCount s.number_of_failed_subtask_tries k c,
             subtask_exceeded_max_retries_after_fail :=
               s.subtask_exceeded_max_retries_after_fail ||
                 !(c < MAX_SUBTASK_RETRIES_AFTER_FAIL),
             subtasks_given :=
               setStatus s.subtasks_given sid SubtaskStatus.failure,
             num_failed_subtasks := s.num_failed_subtasks + 1 } := by
  unfold computationFailed at h
  simp only [Bind.bind, Except.bind] at h
  cases hinc : incrementNumberOfSubtaskFails s sid with
  | error e => rw [hinc] at h; exact absurd h (by simp)
  | ok sA =>
      rw [hinc] at h
      obtain ⟨k, hk, hsA⟩ := incrementNumberOfSubtaskFails_ok hinc
      obtain ⟨t, hft, htk⟩ := getSubtaskNumberFromId_ok hk
      have hAgiven : sA.subtasks_given = s.subtasks_given := by rw [hsA]
      dsimp only at h
      have hknumA : getSubtaskNumberFromId sA sid = .ok k := by
        unfold getSubtaskNumberFromId
        rw [hAgiven, hft]
        simp [htk]
      have hfailA : failCount sA k = some ((failCount s k).getD 0 + 1) := by
        rw [hsA]
        exact lookup_setCount_self _ _ _
      rw [show shouldRetryFailedSubtask sA sid =
            .ok (decide ((failCount s k).getD 0 + 1 <
              MAX_SUBTASK_RETRIES_AFTER_FAIL)) by
          unfold shouldRetryFailedSubtask
          simp only [Bind.bind, Except.bind, hknumA, hfailA]] at h
      dsimp only at h
      refine ⟨k, (failCount s k).getD 0 + 1, hk, rfl, ?_⟩
      by_cases hlt : (failCount s k).getD 0 + 1 <
          MAX_SUBTASK_RETRIES_AFTER_FAIL
      · simp only [hlt, decide_True, if_pos] at h
        unfold coreComputationFailed at h
        rw [hAgiven, hft] at h
        injection h with h1
        rw [← h1, hsA]
        simp [hlt]
      · simp only [hlt, decide_False, if_neg, Bool.false_eq_true,
          not_false_iff, if_false] at h
        unfold coreComputationFailed at h
        simp only [hAgiven, hft] at h
        injection h with h1
        rw [← h1, hsA]
        simp [hlt]

theorem coreAcceptResults_ok {s : TaskState} {sid : String} {s1 : TaskState}
    (h : coreAcceptResults s sid = .ok s1) :
    s1 = { s with
           subtasks_given :=
             setStatus s.subtasks_given sid SubtaskStatus.finished } ∧
      ∃ t, s.subtasks_given.find? (fun u => u.subtask_id = sid) = some t ∧
        t.status ≠ SubtaskStatus.finished := by
  unfold coreAcceptResults at h
  cases hf : s.subtasks_given.find? (fun u => u.subtask_id = sid) with
  | none => rw [hf] at h; exact absurd h (by simp)
  | some t =>
      rw [hf] at h
      dsimp only at h
      by_cases hst : t.status = SubtaskStatus.finished
      · rw [if_pos hst] at h; exact absurd h (by simp)
      · rw [if_neg hst] at h
        injection h with h1
        exact ⟨h1.symm, t, rfl, hst⟩

theorem acceptResults_ok {s : TaskState} {sid : String} {files : List String}
    {s1 : TaskState} {b : Bool}
    (h : acceptResults s sid files = .ok (s1, b)) :
    s1 = { s with
           subtasks_given :=
             setStatus s.subtasks_given sid SubtaskStatus.finished,
           collected_files := s.collected_files ++ files,
           num_tasks_received := s.num_tasks_received + 1 } ∧
      b = decide (s.num_tasks_received + 1 = s.total_tasks) ∧
      ∃ t, s.subtasks_given.find? (fun u => u.subtask_id = sid) = some t ∧
        t.status ≠ SubtaskStatus.finished := by
  unfold acceptResults at h
  simp only [Bind.bind, Except.bind] at h
  cases hc : coreAcceptResults s sid with
  | error e => rw [hc] at h; exact absurd h (by simp)
  | ok sA =>
      rw [hc] at h
      dsimp only at h
      obtain ⟨hsA, t, hft, hst⟩ := coreAcceptResults_ok hc
      injection h with h1
      injection h1 with hs hb
      subst hsA
      refine ⟨by rw [← hs], ?_, t, hft, hst⟩
      rw [← hb]

theorem getNextSubtask_ok_fields {s : TaskState} {s1 : TaskState} {n : Nat}
    (h : getNextSubtask s = .ok (s1, n)) :
    s1.num_tasks_received = s.num_tasks_received ∧
    s1.total_tasks = s.total_tasks ∧
    s1.subtask_exceeded_max_retries_after_fail =
      s.subtask_exceeded_max_retries_after_fail ∧
    s1.collected_files = s.collected_files := by
  unfold getNextSubtask at h
  cases hf : s.subtasks_given.find? isFailedOrRestarted with
  | some t =>
      rw [hf] at h
      injection h with h1
      injection h1 with hs hn
      rw [← hs]
      exact ⟨rfl, rfl, rfl, rfl⟩
  | none =>
      rw [hf] at h
      by_cases hlt : s.last_task < s.total_tasks
      · rw [if_pos hlt] at h
        injection h with h1
        injection h1 with hs hn
        rw [← hs]
        exact ⟨rfl, rfl, rfl, rfl⟩
      · rw [if_neg hlt] at h
        exact absurd h (by simp)

theorem queryExtraData_ok_fields {s : TaskState} {sid : String}
    {s1 : TaskState} {n : Nat} (h : queryExtraData s sid = .ok (s1, n)) :
    s1.num_tasks_received = s.num_tasks_received ∧
    s1.total_tasks = s.total_tasks ∧
    s1.subtask_exceeded_max_retries_after_fail =
      s.subtask_exceeded_max_retries_after_fail ∧
    s1.collected_files = s.collected_files := by
  unfold queryExtraData at h
  simp only [Bind.bind, Except.bind] at h
  cases hg : getNextSubtask s with
  | error e => rw [hg] at h; exact absurd h (by simp)
  | ok p =>
      obtain ⟨sA, n0⟩ := p
      rw [hg] at h
      dsimp only at h
      injection h with h1
      injection h1 with hs hn
      obtain ⟨h1, h2, h3, h4⟩ := getNextSubtask_ok_fields hg
      rw [← hs]
      exact ⟨h1, h2, h3, h4⟩

theorem step_ok_characterization {s : TaskState} {op : Op} {s1 : TaskState}
    {b : Bool} (h : step s op = .ok (s1, b)) :
    s1.total_tasks = s.total_tasks ∧
    s1.subtask_exceeded_max_retries_after_fail =
      (s.subtask_exceeded_max_retries_after_fail ||
        s1.subtask_exceeded_max_retries_after_fail) ∧
    ((s1.num_tasks_received = s.num_tasks_received ∧ b = false) ∨
     (s1.num_tasks_received = s.num_tasks_received + 1 ∧
      b = decide (s.num_tasks_received + 1 = s.total_tasks))) := by
  cases op with
  | dispatch sid =>
      unfold step at h
      dsimp only at h
      cases hq : queryExtraData s sid with
      | error e => rw [hq] at h; exact absurd h (by simp [Except.map])
      | ok p =>
          obtain ⟨sA, n0⟩ := p
          rw [hq] at h
          simp only [Except.map] at h
          injection h with h1
          injection h1 with hs hb
          obtain ⟨h1, h2, h3, h4⟩ := queryExtraData_ok_fields hq
          subst hs
          exact ⟨h2, by simp [h3], Or.inl ⟨h1, hb.symm⟩⟩
  | fail sid =>
      unfold step at h
      dsimp only at h
      cases hc : computationFailed s sid with
      | error e => rw [hc] at h; exact absurd h (by simp [Except.map])
      | ok sA =>
          rw [hc] at h
          simp only [Except.map] at h
          injection h with h1
          injection h1 with hs hb
          obtain ⟨k, c, hk, hc', hsA⟩ := computationFailed_ok hc
          subst hs
          rw [hsA]
          refine ⟨rfl, by simp, Or.inl ⟨rfl, hb.symm⟩⟩
  | accept sid files =>
      unfold step at h
      dsimp only at h
      obtain ⟨hsA, hb, t, hft, hst⟩ := acceptResults_ok h
      rw [hsA]
      exact ⟨rfl, by simp, Or.inr ⟨rfl, hb⟩⟩

theorem runOps_count {ops : List Op} : ∀ {s s1 : TaskState} {m : Nat},
    runOps s ops = .ok (s1, m) →
    s1.total_tasks = s.total_tasks ∧
    s.num_tasks_received ≤ s1.num_tasks_received ∧
    m = (if s.num_tasks_received < s.total_tasks ∧
           s.total_tasks ≤ s1.num_tasks_received then 1 else 0) := by
  induction ops with
  | nil =>
      intro s s1 m h
      unfold runOps at h
      injection h with h1
      injection h1 with hs hm
      subst hs
      refine ⟨rfl, le_refl _, ?_⟩
      rw [← hm]
      have : ¬(s.num_tasks_received < s.total_tasks ∧
          s.total_tasks ≤ s.num_tasks_received) := by omega
      rw [if_neg this]
  | cons op rest ih =>
      intro s s1 m h
      unfold runOps at h
      simp only [Bind.bind, Except.bind] at h
      cases hstep : step s op with
      | error e => rw [hstep] at h; exact absurd h (by simp)
      | ok p =>
          obtain ⟨sA, b⟩ := p
          rw [hstep] at h
          dsimp only at h
          cases hrun : runOps sA rest with
          | error e => rw [hrun] at h; exact absurd h (by simp)
          | ok q =>
              obtain ⟨s2, m2⟩ := q
              rw [hrun] at h
              dsimp only at h
              injection h with h1
              injection h1 with hs hm
              subst hs
              obtain ⟨htot, hmono, hm2⟩ := ih hrun
              obtain ⟨htotA, _, hcase⟩ := step_ok_characterization hstep
              refine ⟨by rw [htot, htotA], ?_, ?_⟩
              · cases hcase with
                | inl hc => omega
                | inr hc => omega
              · rw [← hm, hm2, htotA]
                cases hcase with
                | inl hc =>
                    obtain ⟨hcount, hb⟩ := hc
                    subst hb
                    rw [hcount]
                    simp
                | inr hc =>
                    obtain ⟨hcount, hb⟩ := hc
                    by_cases heq : s.num_tasks_received + 1 = s.total_tasks
                    · have hb' : b = true := by rw [hb]; simp [heq]
                      subst hb'
                      have h1 : ¬(sA.num_tasks_received < s.total_tasks ∧
                          s.total_tasks ≤ s2.num_tasks_received) := by omega
                      have h2 : s.num_tasks_received < s.total_tasks ∧
                          s.total_tasks ≤ s2.num_tasks_received := by omega
                      rw [if_neg h1, if_pos h2]
                      simp
                    · have hb' : b = false := by rw [hb]; simp [heq]
                      subst hb'
                      have hiff : (sA.num_tasks_received < s.total_tasks ∧
                          s.total_tasks ≤ s2.num_tasks_received) ↔
                          (s.num_tasks_received < s.total_tasks ∧
                          s.total_tasks ≤ s2.num_tasks_received) := by omega
                      simp only [Bool.false_eq_true, if_false, Nat.zero_add]
                      by_cases hcond : s.num_tasks_received < s.total_tasks ∧
                          s.total_tasks ≤ s2.num_tasks_received
                      · rw [if_pos (hiff.mpr hcond), if_pos hcond]
                      · rw [if_neg (fun hx => hcond (hiff.mp hx)),
                          if_neg hcond]

/-! ### Claim theorems -/

/-- C2, counterexample: the claim says the scheduler picks the first failed
or restarted subtask in stable order by chunk index.  In `c2State` the
failed record for chunk 5 precedes the restarted record for chunk 2 in the
`subtasks_given` insertion order, and `_get_next_subtask` returns chunk 5,
not the smaller index 2. -/
theorem c2_selection_ignores_index_order :
    (getNextSubtask c2State).map (fun p => p.2) = .ok 5 ∧
    (⟨"s2", 2, SubtaskStatus.restarted⟩ : Subtask) ∈ c2State.subtasks_given ∧
    isFailedOrRestarted ⟨"s2", 2, SubtaskStatus.restarted⟩ = true ∧
    (2 : Nat) < 5 := by
  refine ⟨rfl, ?_, rfl, by omega⟩
  simp [c2State]

/-- C2, amended: whenever some recorded subtask is failed or restarted,
`_get_next_subtask` picks the first such record in `subtasks_given`
insertion (dispatch-record) order — not by chunk index — marks it resent,
decrements the outstanding-failure count by one and returns its chunk
index. -/
theorem c2_retry_first_in_record_order (s : TaskState)
    (pre post : List Subtask) (t : Subtask)
    (hsplit : s.subtasks_given = pre ++ t :: post)
    (hpre : ∀ u ∈ pre, isFailedOrRestarted u = false)
    (ht : isFailedOrRestarted t = true) :
    getNextSubtask s = .ok
      ({ s with
         subtasks_given :=
           setStatus s.subtasks_given t.subtask_id SubtaskStatus.resent,
         num_failed_subtasks := s.num_failed_subtasks - 1 },
       t.subtask_num) := by
  unfold getNextSubtask
  rw [hsplit, find?_append_of_prefix_none isFailedOrRestarted pre t post
    hpre ht]

/-- C2, witness: the amended selection rule applied to `c2WitState`, whose
first failed record is the one for chunk 1. -/
theorem c2_retry_first_in_record_order_witness :
    getNextSubtask c2WitState = .ok
      ({ c2WitState with
         subtasks_given :=
           setStatus c2WitState.subtasks_given "b" SubtaskStatus.resent,
         num_failed_subtasks := c2WitState.num_failed_subtasks - 1 },
       1) :=
  c2_retry_first_in_record_order c2WitState
    [⟨"a", 0, SubtaskStatus.starting⟩] []
    ⟨"b", 1, SubtaskStatus.failure⟩ rfl (by decide) rfl

/-- C3, counterexample: the claim says that with no failed or restarted
subtask and the dispatch cursor at N, selection returns NoMoreWork rather
than failing.  In the exhausted state `c3State` the antecedent holds and
`_get_next_subtask` fails its assertion instead of returning. -/
theorem c3_exhausted_selector_fails :
    (∀ t ∈ c3State.subtasks_given, isFailedOrRestarted t = false) ∧
    c3State.total_tasks ≤ c3State.last_task ∧
    getNextSubtask c3State =
      .error "AssertionError: last_task < total_tasks" := by
  refine ⟨?_, by decide, rfl⟩
  intro t ht
  simp [c3State] at ht
  rw [ht]
  rfl

/-- C3, amended: in an exhausted state (no failed or restarted record, the
cursor at or past N) `_get_next_subtask` raises an `AssertionError` rather
than returning a NoMoreWork value; the no-work condition is instead
signalled by `needs_computation` being false in exactly such states (with
no outstanding failures counted), so callers that respect the guard never
reach the assertion. -/
theorem c3_exhaustion_signalled_by_guard (s : TaskState)
    (h1 : ∀ t ∈ s.subtasks_given, isFailedOrRestarted t = false)
    (h2 : s.total_tasks ≤ s.last_task)
    (h3 : s.num_failed_subtasks ≤ 0) :
    getNextSubtask s = .error "AssertionError: last_task < total_tasks" ∧
    needsComputation s = false := by
  have hnone : s.subtasks_given.find? isFailedOrRestarted = none :=
    List.find?_eq_none.mpr fun t ht => by rw [h1 t ht]; simp
  constructor
  · unfold getNextSubtask
    rw [hnone]
    rw [if_neg (Nat.not_lt.mpr h2)]
  · unfold needsComputation coreNeedsComputation
    have ha : decide (s.last_task < s.total_tasks) = false := by
      simp [Nat.not_lt.mpr h2]
    have hb : decide (0 < s.num_failed_subtasks) = false := by
      simp
      exact h3
    rw [ha, hb]
    simp

/-- C3, witness: the amended statement applied to the exhausted state
`c3State`. -/
theorem c3_exhaustion_signalled_by_guard_witness :
    getNextSubtask c3State =
      .error "AssertionError: last_task < total_tasks" ∧
    needsComputation c3State = false :=
  c3_exhaustion_signalled_by_guard c3State
    (by intro t ht; simp [c3State] at ht; rw [ht]; rfl)
    (by decide) (by decide)

/-- C5, counterexample: the claim says that with the latch set,
`finished_computation` is true exactly when every chunk has reached an
ended status.  In `c5State` (N = 3) the code reports the task finished,
although chunk 1 was never dispatched and so has not reached any ended
status. -/
theorem c5_finished_despite_pending_chunk :
    finishedComputation c5State = true ∧
    c5State.subtask_exceeded_max_retries_after_fail = true ∧
    (1 : Nat) < c5State.total_tasks ∧
    chunkHasEndedStatus c5State 1 = false ∧
    allChunksEnded c5State = false := by
  exact ⟨rfl, rfl, by decide, rfl, rfl⟩

/-- C5, amended: with the latch set, `finished_computation` is true exactly
when every *recorded subtask* is in an ended status (`finished`, `failure`,
`timeout`, `cancelled`, `resent`); chunks with no record impose no
condition.  With the latch unset the default full-success criterion
(received count = N) decides. -/
theorem c5_partial_termination_over_records (s : TaskState) :
    (s.subtask_exceeded_max_retries_after_fail = true →
      (finishedComputation s = true ↔
        ∀ t ∈ s.subtasks_given, isSubtaskEnded t = true)) ∧
    (s.subtask_exceeded_max_retries_after_fail = false →
      (finishedComputation s = true ↔
        s.num_tasks_received = s.total_tasks)) := by
  constructor
  · intro hlatch
    unfold finishedComputation
    rw [hlatch]
    simp only [if_true]
    exact allSubtasksHaveEndedStatus_iff s
  · intro hlatch
    unfold finishedComputation coreFinishedComputation
    rw [hlatch]
    simp

/-- C5, witness: the amended predicate applied to the latched state
`c5WitState`, all of whose records are ended. -/
theorem c5_partial_termination_over_records_witness :
    (finishedComputation c5WitState = true ↔
      ∀ t ∈ c5WitState.subtasks_given, isSubtaskEnded t = true) ∧
    finishedComputation c5WitState = true :=
  ⟨(c5_partial_termination_over_records c5WitState).1 rfl, rfl⟩

/-- C8, counterexample: the claim says a failure notification with an
unknown dispatch id is logged and otherwise ignored, raising nothing out of
the handler.  In `c8State` the notification for the unknown id "zzz" makes
`computation_failed` raise a `KeyError` (from
`_get_subtask_number_from_id`) instead of returning. -/
theorem c8_unknown_id_raises :
    c8State.subtasks_given.find? (fun t => t.subtask_id = "zzz") = none ∧
    computationFailed c8State "zzz" = .error "KeyError" := ⟨rfl, rfl⟩

/-- C8, amended: a failure notification whose dispatch id matches no
recorded dispatch makes `computation_failed` raise a `KeyError`; the error
is raised before any mutation, so counters, latch and statuses are left
unchanged, but the handler itself does not catch or log it — ignoring it is
left to the caller. -/
theorem c8_unknown_id_error_before_mutation (s : TaskState) (sid : String)
    (h : s.subtasks_given.find? (fun t => t.subtask_id = sid) = none) :
    computationFailed s sid = .error "KeyError" := by
  unfold computationFailed incrementNumberOfSubtaskFails
    getSubtaskNumberFromId
  rw [h]
  rfl

/-- C8, witness: the amended statement applied to `c8State` and the unknown
id "zzz". -/
theorem c8_unknown_id_error_before_mutation_witness :
    computationFailed c8State "zzz" = .error "KeyError" :=
  c8_unknown_id_error_before_mutation c8State "zzz" rfl

/-- C9: evaluation of `get_output_path` at a configuration with an output
path but neither an explicit output filename nor a container choice.  The
code interpolates the whole presets dict into the filename — the claim
(and the intent visible in `build_full_definition`, which reads
`presets.get('container')`) expects the preset default container "mp4".
The explicit-filename and explicit-container branches agree with the
claim. -/
theorem c9_default_container_uses_presets_dict :
    getOutputPath c9Opts "movie" =
      "/out/movie.\x7b\x27container\x27: \x27mp4\x27\x7d" ∧
    getOutputPathSpec c9Opts "movie" = "/out/movie.mp4" ∧
    getOutputPath c9Opts "movie" ≠ getOutputPathSpec c9Opts "movie" ∧
    getOutputPath ⟨"/out", some "clip.avi", none⟩ "movie" = "/out/clip.avi" ∧
    getOutputPath ⟨"/out", none, some "avi"⟩ "movie" = "/out/movie.avi" := by
  exact ⟨rfl, rfl, by decide, rfl, rfl⟩

/-- C10: `_merge_video` requires exactly one input resource in the task
definition: with zero or several resources it aborts on the assertion
before handing anything to the stream merger or relocating any output, and
the final relocation step can only ever be reached when exactly one
resource is present. -/
theorem c10_merge_requires_single_resource :
    (∀ s : TaskState, s.resources.length ≠ 1 →
      (mergeVideo s).2 =
        .error "AssertionError: input file is the only resource" ∧
      ∀ e ∈ (mergeVideo s).1, e = MergeEffect.removeIntermediate) ∧
    (∀ s : TaskState, MergeEffect.moveOutput ∈ (mergeVideo s).1 →
      s.resources.length = 1) := by
  constructor
  · intro s h
    unfold mergeVideo
    rw [if_neg h]
    exact ⟨rfl, by intro e he; simpa using he⟩
  · intro s h
    by_cases hlen : s.resources.length = 1
    · exact hlen
    · exfalso
      unfold mergeVideo at h
      rw [if_neg hlen] at h
      simp at h

/-- C10, witness: the assertion fires on `c10State`, which carries two input
resources, and no merge or relocation effect is emitted. -/
theorem c10_merge_requires_single_resource_witness :
    (mergeVideo c10State).2 =
      .error "AssertionError: input file is the only resource" ∧
    ∀ e ∈ (mergeVideo c10State).1, e = MergeEffect.removeIntermediate :=
  c10_merge_requires_single_resource.1 c10State (by decide)

/-- C1, counterexample: the claim says that once the latch is set and every
chunk is in an ended status, the merge fires with the accumulated results.
In the partial-failure run `c1Ops` (N = 2: chunk 0 succeeds, chunk 1
exceeds its retry budget) the final state has the latch set, every chunk
ended and `finished_computation` true, yet `_merge_video` was invoked zero
times. -/
theorem c1_partial_termination_without_merge :
    (runOps (initState 2 ["input.mp4"]) c1Ops).map
      (fun p => (p.1.subtask_exceeded_max_retries_after_fail,
                 allChunksEnded p.1, finishedComputation p.1, p.2)) =
      .ok (true, true, true, 0) ∧
    (runOps (initState 2 ["input.mp4"]) c1Ops).map (fun p => p.1) =
      .ok c1EndedState := ⟨rfl, rfl⟩

/-- C1, amended: partial termination does not invoke the merge.  With the
latch set and every recorded subtask ended, `finished_computation` is true
(the task terminates), but `_merge_video` fires only from `accept_results`,
exactly when the received-result count reaches N — never from the
partial-failure path. -/
theorem c1_merge_only_on_full_success :
    (∀ (s : TaskState) (sid : String) (files : List String)
        (s1 : TaskState) (b : Bool),
        acceptResults s sid files = .ok (s1, b) →
        (b = true ↔ s1.num_tasks_received = s1.total_tasks)) ∧
    (∀ s : TaskState, s.subtask_exceeded_max_retries_after_fail = true →
        allSubtasksHaveEndedStatus s = true →
        finishedComputation s = true) := by
  constructor
  · intro s sid files s1 b h
    obtain ⟨hs1, hb, t, hft, hst⟩ := acceptResults_ok h
    subst hs1
    rw [hb]
    simp
  · intro s hlatch hended
    unfold finishedComputation
    rw [hlatch]
    simpa using hended

/-- C1, witness: the first part applied to the concrete success
notification that completes `c1AccState`, and the second to the latched,
all-ended state `c1EndedState`. -/
theorem c1_merge_only_on_full_success_witness :
    (true = true ↔
      c1AccAfter.num_tasks_received = c1AccAfter.total_tasks) ∧
    finishedComputation c1EndedState = true :=
  ⟨c1_merge_only_on_full_success.1 c1AccState "a" ["r"] c1AccAfter true rfl,
   c1_merge_only_on_full_success.2 c1EndedState rfl rfl⟩

/-- C4: a failure notification for a known dispatch id increments that
chunk's counter by exactly one (the entry is created lazily, so the first
failure yields count 1); the resulting latch is the old latch or-ed with
the failure of `counter < MAX_SUBTASK_RETRIES_AFTER_FAIL` evaluated at the
new count — so the latch is set on the notification that makes shouldRetry
false; once set, `needs_computation` is false, and the latch survives every
further stimulus, so under the `needs_computation` guard no chunk is ever
dispatched again. -/
theorem c4_bounded_retries :
    (∀ (s : TaskState) (sid : String) (k : Nat) (s1 : TaskState),
        getSubtaskNumberFromId s sid = .ok k →
        computationFailed s sid = .ok s1 →
        failCount s1 k = some ((failCount s k).getD 0 + 1) ∧
        s1.subtask_exceeded_max_retries_after_fail =
          (s.subtask_exceeded_max_retries_after_fail ||
           !((failCount s k).getD 0 + 1 <
               MAX_SUBTASK_RETRIES_AFTER_FAIL))) ∧
    (∀ s : TaskState, s.subtask_exceeded_max_retries_after_fail = true →
        needsComputation s = false) ∧
    (∀ (s : TaskState) (op : Op) (s1 : TaskState) (b : Bool),
        step s op = .ok (s1, b) →
        s.subtask_exceeded_max_retries_after_fail = true →
        s1.subtask_exceeded_max_retries_after_fail = true) := by
  refine ⟨?_, ?_, ?_⟩
  · intro s sid k s1 hk h
    obtain ⟨k2, c, hk2, hcdef, hs1⟩ := computationFailed_ok h
    rw [hk] at hk2
    injection hk2 with hkk
    subst hkk
    subst hcdef
    subst hs1
    constructor
    · unfold failCount
      exact lookup_setCount_self _ _ _
    · rfl
  · intro s h
    unfold needsComputation
    rw [h]
    rfl
  · intro s op s1 b h hl
    obtain ⟨_, hlatch, _⟩ := step_ok_characterization h
    rw [hl] at hlatch
    simpa using hlatch

/-- C4, witness: the first failure notification on `c4State` creates the
counter entry with value 1 and leaves the latch unset (1 < 2), and a
latched variant of the resulting state refuses further work. -/
theorem c4_bounded_retries_witness :
    (failCount c4After 0 = some ((failCount c4State 0).getD 0 + 1) ∧
     c4After.subtask_exceeded_max_retries_after_fail =
       (c4State.subtask_exceeded_max_retries_after_fail ||
        !((failCount c4State 0).getD 0 + 1 <
            MAX_SUBTASK_RETRIES_AFTER_FAIL))) ∧
    needsComputation
      { c4After with subtask_exceeded_max_retries_after_fail := true } =
      false :=
  ⟨c4_bounded_retries.1 c4State "a" 0 c4After rfl rfl,
   c4_bounded_retries.2.1 _ rfl⟩

/-- C6, counterexample: the claim says the merge receives the collected
artifacts ordered by chunk index.  In the run `c6Ops` chunk 1's result is
accepted before chunk 0's; the merge fires exactly once but receives
`["r1", "r0"]` — acceptance order — although chunk 0's artifact "r0"
precedes "r1" in index order. -/
theorem c6_merge_receives_acceptance_order :
    (runOps (initState 2 ["input.mp4"]) c6Ops).map
      (fun p => (p.1.subtasks_given, p.1.collected_files, p.2)) =
      .ok ([⟨"a", 0, SubtaskStatus.finished⟩,
            ⟨"b", 1, SubtaskStatus.finished⟩],
           ["r1", "r0"], 1) ∧
    (["r1", "r0"] : List String) ≠ ["r0", "r1"] := ⟨rfl, by decide⟩

/-- C6, amended: when the count of accepted results reaches N the merge is
invoked, and over any run it is invoked at most once — exactly once when
the count crosses N — receiving the collected artifacts in the order the
results were accepted (each acceptance appends its files), which need not
be chunk-index order. -/
theorem c6_merge_exactly_once :
    (∀ (s : TaskState) (ops : List Op) (s1 : TaskState) (m : Nat),
        runOps s ops = .ok (s1, m) →
        m ≤ 1 ∧
        (s.num_tasks_received < s.total_tasks →
         s.total_tasks ≤ s1.num_tasks_received → m = 1)) ∧
    (∀ (s : TaskState) (sid : String) (files : List String)
        (s1 : TaskState) (b : Bool),
        acceptResults s sid files = .ok (s1, b) →
        s1.collected_files = s.collected_files ++ files ∧
        (b = true ↔ s1.num_tasks_received = s.total_tasks)) := by
  constructor
  · intro s ops s1 m h
    obtain ⟨htot, hmono, hm⟩ := runOps_count h
    constructor
    · rw [hm]
      split <;> omega
    · intro h1 h2
      rw [hm, if_pos ⟨h1, h2⟩]
  · intro s sid files s1 b h
    obtain ⟨hs1, hb, t, hft, hst⟩ := acceptResults_ok h
    subst hs1
    refine ⟨rfl, ?_⟩
    rw [hb]
    simp

/-- C6, witness: the amended statement applied to the one-acceptance run
that completes `c6WitState`. -/
theorem c6_merge_exactly_once_witness :
    (1 ≤ 1 ∧
     (c6WitState.num_tasks_received < c6WitState.total_tasks →
      c6WitState.total_tasks ≤ c6WitAfter.num_tasks_received → 1 = 1)) ∧
    (c6WitAfter.collected_files = c6WitState.collected_files ++ ["r"] ∧
     (true = true ↔
       c6WitAfter.num_tasks_received = c6WitState.total_tasks)) :=
  ⟨c6_merge_exactly_once.1 c6WitState [Op.accept "a" ["r"]] c6WitAfter 1 rfl,
   c6_merge_exactly_once.2 c6WitState "a" ["r"] c6WitAfter true rfl⟩

/-- C7: duplicate success notifications for one dispatch id are counted
once: the first acceptance increments the received count and appends the
chunk's artifacts; the second acceptance of the same id is rejected by the
base-class check (the id now resolves to an already-finished record) before
any mutation, so the count and the collected artifacts change only once,
and the finished record is never again picked by the retry branch of the
scheduler. -/
theorem c7_duplicate_success_counted_once (s : TaskState) (sid : String)
    (files files2 : List String) (s1 : TaskState) (b : Bool)
    (h : acceptResults s sid files = .ok (s1, b)) :
    s1.num_tasks_received = s.num_tasks_received + 1 ∧
    s1.collected_files = s.collected_files ++ files ∧
    acceptResults s1 sid files2 =
      .error "UnknownDispatch: already resolved" ∧
    (∀ t ∈ s1.subtasks_given, t.subtask_id = sid →
      isFailedOrRestarted t = false) := by
  obtain ⟨hs1, hb, t, hft, hst⟩ := acceptResults_ok h
  subst hs1
  refine ⟨rfl, rfl, ?_, ?_⟩
  · have hcore : coreAcceptResults
        { s with
          subtasks_given :=
            setStatus s.subtasks_given sid SubtaskStatus.finished,
          collected_files := s.collected_files ++ files,
          num_tasks_received := s.num_tasks_received + 1 } sid =
        .error "UnknownDispatch: already resolved" := by
      unfold coreAcceptResults
      dsimp only
      rw [find?_setStatus, hft]
      dsimp only [Option.map]
      rw [if_pos rfl]
    unfold acceptResults
    simp only [Bind.bind, Except.bind, hcore]
  · intro u hu hid
    dsimp only at hu
    unfold setStatus at hu
    obtain ⟨v, hv, huv⟩ := List.mem_map.mp hu
    by_cases hvid : v.subtask_id = sid
    · rw [if_pos hvid] at huv
      rw [← huv]
      rfl
    · rw [if_neg hvid] at huv
      exact absurd (huv ▸ hid) hvid

/-- C7, witness: the duplicate-success property applied to the concrete
first acceptance that turns `c7State` into `c7After`. -/
theorem c7_duplicate_success_counted_once_witness :
    c7After.num_tasks_received = c7State.num_tasks_received + 1 ∧
    c7After.collected_files = c7State.collected_files ++ ["r0"] ∧
    acceptResults c7After "a" ["r0"] =
      .error "UnknownDispatch: already resolved" ∧
    (∀ t ∈ c7After.subtasks_given, t.subtask_id = "a" →
      isFailedOrRestarted t = false) :=
  c7_duplicate_success_counted_once c7State "a" ["r0"] ["r0"] c7After
    false rfl

end Transcoding
